import Mathlib

/-!
# Verification of the co2-canary wake-cycle core

Shallow embedding of the battery-powered CO2 monitor's core: the `History`
ring buffer, the `CalibrationData` record, the Sunrise sensor acquisition
driver interface, and the wake-cycle orchestrator of `src/main.rs`, together
with the division structure of `Display::draw_graph` from `src/display.rs`.

The repository's `history.rs` and `sunrise.rs` modules are not present in the
source tree (only their callers in `main.rs` and `display.rs` are); their
definitions below are modelled from the specification and are marked as such
in their doc comments.  `main.rs` and `display.rs` are embedded from source.
-/

namespace CO2Canary

/-- Modelled from the spec: `history.rs` is missing from the source tree.
History ring buffer (spec section 4.1): fixed capacity `N`, backing storage of
`N` slots, a write cursor, and a count of valid entries.  Readings are 16-bit
unsigned values in the device, modelled as `Nat` (no arithmetic is performed
on stored readings, so the width does not matter). -/
structure History where
  data : Nat → Nat
  cursor : Nat
  count : Nat

/-- Cold-boot state: zero-initialized storage, `count = 0` (spec section 3). -/
def History.new : History :=
  { data := fun _ => 0, cursor := 0, count := 0 }

/-- Modelled from the spec: `add_measurement(value)` writes to the next free
slot and increments `count` while `count < N`; once `count == N` it overwrites
the logically-oldest slot, with the cursor wrapping modulo `N`.  It has no
error condition. -/
def History.add_measurement (N : Nat) (h : History) (v : Nat) : History :=
  { data := fun j => if j = h.cursor then v else h.data j
    cursor := (h.cursor + 1) % N
    count := if h.count < N then h.count + 1 else h.count }

/-- `len()` returns the count of valid entries. -/
def History.len (h : History) : Nat := h.count

/-- Modelled from the spec: `at(i)` maps the logical index `i` (oldest-first)
to a physical slot by modular arithmetic on the write cursor.  The oldest
retained reading lives `count` slots behind the cursor.  (The Rust name `at`
is a reserved word in Lean, hence `at'`.) -/
def History.at' (N : Nat) (h : History) (i : Nat) : Nat :=
  h.data ((h.cursor + (N - h.count) + i) % N)

/-- Modelled from the spec: `max_value()` returns the maximum of all
currently-retained readings, or no value when `count == 0`. -/
def History.max_value (N : Nat) (h : History) : Option Nat :=
  if h.count = 0 then none
  else some (((List.range h.count).map (h.at' N)).foldl Nat.max 0)

/-- Modelled from the spec: `data_for_display()` returns an oldest-to-newest
paired index/value projection of the retained readings. -/
def History.data_for_display (N : Nat) (h : History) : List Nat × List Nat :=
  (List.range h.count, (List.range h.count).map (h.at' N))

/-- The history obtained from a fresh (cold-boot) `History` by a sequence of
`add_measurement` calls, oldest call first. -/
def runAdds (N : Nat) (vs : List Nat) : History :=
  vs.foldl (History.add_measurement N) History.new

/-- The `i`-th element of a list of readings (0-indexed), defaulting to 0. -/
def nth : List Nat → Nat → Nat
  | [], _ => 0
  | x :: _, 0 => x
  | _ :: xs, n + 1 => nth xs n

/-- Modelled from the spec: `sunrise.rs` is missing from the source tree.
`CalibrationData` holds the accumulated elapsed operating time in milliseconds
and the auxiliary self-calibration bookkeeping state (spec section 3: a
last-full-calibration marker). -/
structure CalibrationData where
  time_ms : Nat
  last_calibration_marker : Nat

/-- Cold-boot state: all fields zero (spec section 4.2). -/
def CalibrationData.new : CalibrationData :=
  { time_ms := 0, last_calibration_marker := 0 }

/-- Modelled from the spec: `update_time_ms(delta)` adds `delta` to the
accumulated operating-time counter and touches nothing else. -/
def CalibrationData.update_time_ms (c : CalibrationData) (delta : Nat) : CalibrationData :=
  { c with time_ms := c.time_ms + delta }

/-- Sensor configuration rejected during `init` (spec section 7): the bus
reported a failed acknowledgment or the device returned an unexpected
status. -/
inductive InitError
  | ackFailed
  | unexpectedStatus
deriving DecidableEq

/-- Bus transaction failure during the measurement trigger (spec section 7). -/
inductive MeasurementError
  | busFailure
deriving DecidableEq

/-- Failure of the `get_co2` result read (spec section 7): a bus transaction
failure, or a device-reported internal fault code. -/
inductive SensorError
  | busFailure
  | internalFault (code : Nat)
deriving DecidableEq

/-- The outcomes the external world (I2C bus, sensor, SPI display) hands to
one wake cycle: the results of each fallible transaction.  This is the
environment against which the orchestrator of `main.rs` is run. -/
structure Env where
  init_result : Except InitError Unit
  start_result : Except MeasurementError Unit
  co2_result : Except SensorError Nat
  temperature : Option Nat
  display_ok : Bool

/-- Modelled from the spec: `sunrise.rs` is missing.  `init(sample_count)`
writes configuration registers; its outcome is determined by the bus
environment.  `CalibrationData` is not a parameter: per the spec, `init`
never reads or writes it. -/
def SunriseSensor.init (env : Env) (sample_count : Nat) : Except InitError Unit :=
  env.init_result

/-- Modelled from the spec: `sunrise.rs` is missing.  `start_measurement`
takes an optional calibration payload (read-only), writes the
calibration-influencing registers and issues a single-shot trigger; it does
not block for completion. -/
def SunriseSensor.start_measurement (env : Env) (calibration : Option CalibrationData) :
    Except MeasurementError Unit :=
  env.start_result

/-- Modelled from the spec: `sunrise.rs` is missing.  `get_co2` reads the
result registers and, regardless of success or failure, performs the
calibration bookkeeping update on the passed `CalibrationData`.  That
bookkeeping is modelled as the auxiliary-marker write; the elapsed-time
accumulation named `update_time_ms` is performed by the orchestrator at the
call site (`main.rs` line 96), so modelling a second time accumulation inside
`get_co2` would double-count the elapsed time. -/
def SunriseSensor.get_co2 (env : Env) (cal : CalibrationData) :
    Except SensorError Nat × CalibrationData :=
  (env.co2_result,
   { cal with last_calibration_marker := cal.last_calibration_marker + 1 })

/-- Modelled from the spec: `sunrise.rs` is missing.  `get_temperature`
returns an optional temperature value, absent if the supplying transaction
failed.  (The device value is a float; the claims only depend on presence, so
it is modelled as a `Nat`.) -/
def SunriseSensor.get_temperature (env : Env) : Option Nat :=
  env.temperature

/-- Observable steps of one wake cycle of `main.rs`, in program order.  The
`panic` constructors mark the `expect`/`unwrap` process-fatal exits. -/
inductive Event
  | constructDriver
  | initOk
  | panicInit
  | startOk
  | panicStart
  | timedWait (ms : Nat)
  | getCo2
  | calibrationBookkeeping
  | addMeasurement (v : Nat)
  | updateTime (ms : Nat)
  | getTemperature
  | panicTemperature
  | turnOff
  | draw
  | panicDraw
  | armTimer (ms : Nat)
  | deepSleep
deriving DecidableEq

/-- `number_of_samples` from `main.rs` line 66. -/
def number_of_samples : Nat := 2

/-- `milliseconds_per_sample` from `main.rs` line 79. -/
def milliseconds_per_sample : Nat := 300

/-- The timed wait for the sample duration (`main.rs` lines 80-83). -/
def sample_wait_ms : Nat := number_of_samples * milliseconds_per_sample

/-- `Duration::from_secs` in milliseconds. -/
def durationFromSecs (s : Nat) : Nat := 1000 * s

/-- Result of one wake cycle: the trace of observable steps, the final
retained state, the history instance handed to `Display::draw` (if the cycle
got that far), and whether the cycle ran to completion (reached deep sleep)
rather than aborting through a panic. -/
structure CycleResult where
  trace : List Event
  history : History
  calibration : CalibrationData
  drawInput : Option History
  completed : Bool

/-- Embedding of the wake-cycle orchestrator, `main` of `main.rs` lines
61-146: construct the driver, `init` (`expect`: a failure is process-fatal),
`start_measurement(Some(&CALIBRATION_DATA))` (`expect`), timed wait of
`number_of_samples * milliseconds_per_sample` ms, `get_co2(&mut
CALIBRATION_DATA)` matched at the call site (an error records the sentinel 0
in `HISTORY`), unconditional `update_time_ms`, `get_temperature().unwrap()`
(process-fatal on absence), `turn_off`, `Display::draw(&HISTORY, ...)`
(`expect`), then arming `TimerWakeupSource::new(Duration::from_secs(0))` and
entering deep sleep. -/
def runCycle (N : Nat) (env : Env) (hist0 : History) (cal0 : CalibrationData)
    (ticks_since_boot : Nat) : CycleResult :=
  match SunriseSensor.init env number_of_samples with
  | Except.error _ =>
      { trace := [Event.constructDriver, Event.panicInit]
        history := hist0, calibration := cal0, drawInput := none, completed := false }
  | Except.ok _ =>
      match SunriseSensor.start_measurement env (some cal0) with
      | Except.error _ =>
          { trace := [Event.constructDriver, Event.initOk, Event.panicStart]
            history := hist0, calibration := cal0, drawInput := none, completed := false }
      | Except.ok _ =>
          let res := SunriseSensor.get_co2 env cal0
          let cal1 := res.2
          let co2val : Nat :=
            match res.1 with
            | Except.ok v => v
            | Except.error _ => 0
          let hist1 := History.add_measurement N hist0 co2val
          let cal2 := CalibrationData.update_time_ms cal1 (ticks_since_boot / 1000)
          let pre : List Event :=
            [Event.constructDriver, Event.initOk, Event.startOk,
             Event.timedWait sample_wait_ms, Event.getCo2, Event.calibrationBookkeeping,
             Event.addMeasurement co2val, Event.updateTime (ticks_since_boot / 1000)]
          match SunriseSensor.get_temperature env with
          | none =>
              { trace := pre ++ [Event.panicTemperature]
                history := hist1, calibration := cal2, drawInput := none, completed := false }
          | some _ =>
              if env.display_ok then
                { trace := pre ++ [Event.getTemperature, Event.turnOff, Event.draw,
                                   Event.armTimer (durationFromSecs 0), Event.deepSleep]
                  history := hist1, calibration := cal2, drawInput := some hist1
                  completed := true }
              else
                { trace := pre ++ [Event.getTemperature, Event.turnOff, Event.panicDraw]
                  history := hist1, calibration := cal2, drawInput := some hist1
                  completed := false }

/-- `true` exactly on `Except.ok`. -/
def exceptIsOk {ε α : Type} : Except ε α → Bool
  | Except.ok _ => true
  | Except.error _ => false

/-- Recognizes `addMeasurement` events. -/
def isAdd : Event → Bool
  | Event.addMeasurement _ => true
  | _ => false

/-- Recognizes `updateTime` events. -/
def isUpdateTime : Event → Bool
  | Event.updateTime _ => true
  | _ => false

/-- Recognizes the `getCo2` event. -/
def isGetCo2 : Event → Bool
  | Event.getCo2 => true
  | _ => false

/-- Recognizes the `draw` event. -/
def isDraw : Event → Bool
  | Event.draw => true
  | _ => false

/-- Recognizes the `deepSleep` event. -/
def isDeepSleep : Event → Bool
  | Event.deepSleep => true
  | _ => false

/-- The divisor of every integer division performed by `Display::draw_graph`
(`display.rs` lines 170-178): per loop iteration `i < len - 1`, the x
coordinates divide by `history_length - 1` (lines 171-172) and the y
coordinates divide by `max_co2` (lines 173-174), where `max_co2 =
history.max_value().expect(..)` (line 168, present whenever `len > 0`). -/
def drawGraphDivisors (N : Nat) (h : History) : List Nat :=
  (List.range (h.len - 1)).flatMap fun _ =>
    [h.len - 1, h.len - 1,
     (History.max_value N h).getD 0, (History.max_value N h).getD 0]

/-- Environment in which every transaction succeeds. -/
def envAllOk : Env :=
  { init_result := Except.ok ()
    start_result := Except.ok ()
    co2_result := Except.ok 400
    temperature := some 25
    display_ok := true }

/-- Environment in which the `init` acknowledgment fails and everything else
would succeed. -/
def envInitFail : Env :=
  { init_result := Except.error InitError.ackFailed
    start_result := Except.ok ()
    co2_result := Except.ok 400
    temperature := some 25
    display_ok := true }

/-- Environment in which `get_co2` reports a device-internal fault and every
other transaction succeeds. -/
def envCo2Fail : Env :=
  { init_result := Except.ok ()
    start_result := Except.ok ()
    co2_result := Except.error (SensorError.internalFault 3)
    temperature := some 25
    display_ok := true }

theorem nth_append_left (ws l : List Nat) (i : Nat) (hi : i < ws.length) :
    nth (ws ++ l) i = nth ws i := by
  induction ws generalizing i with
  | nil => simp at hi
  | cons x xs ih =>
    cases i with
    | zero => rfl
    | succ n =>
      show nth (xs ++ l) n = nth xs n
      exact ih n (by simpa using hi)

theorem nth_append_length (ws : List Nat) (v : Nat) :
    nth (ws ++ [v]) ws.length = v := by
  induction ws with
  | nil => rfl
  | cons x xs ih =>
    show nth (xs ++ [v]) xs.length = v
    exact ih

theorem mod_two_regions (x N : Nat) (hx : x < 2 * N) :
    x % N = if x < N then x else x - N := by
  rcases Nat.lt_or_ge x N with h | h
  · rw [if_pos h, Nat.mod_eq_of_lt h]
  · rw [if_neg (by omega), Nat.mod_eq_sub_mod h,
      Nat.mod_eq_of_lt (by omega)]

theorem runAdds_append (N : Nat) (ws : List Nat) (v : Nat) :
    runAdds N (ws ++ [v]) = History.add_measurement N (runAdds N ws) v := by
  simp [runAdds, List.foldl_append]

/-- Invariant of the ring buffer under a sequence of insertions starting from
the cold-boot state: the count is `min m N`, the cursor has advanced `m` slots
modulo `N`, and logical position `i` holds the `(m - count + i)`-th inserted
value. -/
theorem runAdds_spec (N : Nat) (hN : 0 < N) (vs : List Nat) :
    (runAdds N vs).count = min vs.length N ∧
    (runAdds N vs).cursor = vs.length % N ∧
    ∀ i, i < min vs.length N →
      (runAdds N vs).at' N i = nth vs (vs.length - min vs.length N + i) := by
  induction vs using List.reverseRecOn with
  | nil =>
      refine ⟨by simp [runAdds, History.new], by simp [runAdds, History.new], ?_⟩
      intro i hi
      simp at hi
  | append_singleton ws v ih =>
      obtain ⟨hcount, hcursor, hat⟩ := ih
      rw [runAdds_append]
      have hlen : (ws ++ [v]).length = ws.length + 1 := by simp
      rw [hlen]
      rcases Nat.lt_or_ge ws.length N with hm | hm
      · -- the buffer was not yet full before this insertion
        have hcnt : (runAdds N ws).count = ws.length := by
          rw [hcount]; omega
        have hcur : (runAdds N ws).cursor = ws.length := by
          rw [hcursor, Nat.mod_eq_of_lt hm]
        have hcount' :
            (History.add_measurement N (runAdds N ws) v).count = ws.length + 1 := by
          simp [History.add_measurement, hcnt, hm]
        have hcursor' :
            (History.add_measurement N (runAdds N ws) v).cursor = (ws.length + 1) % N := by
          show ((runAdds N ws).cursor + 1) % N = (ws.length + 1) % N
          rw [hcur]
        refine ⟨by rw [hcount']; omega, hcursor', ?_⟩
        intro i hi
        have hi' : i < ws.length + 1 := by omega
        have hidx : ws.length + 1 - min (ws.length + 1) N + i = i := by omega
        rw [hidx]
        -- the physical slot of logical index i is i itself
        have hphys :
            ((History.add_measurement N (runAdds N ws) v).cursor +
              (N - (History.add_measurement N (runAdds N ws) v).count) + i) % N = i := by
          rw [hcount', hcursor']
          rcases Nat.lt_or_ge (ws.length + 1) N with h1 | h1
          · rw [Nat.mod_eq_of_lt h1]
            have he : ws.length + 1 + (N - (ws.length + 1)) + i = N + i := by omega
            rw [he, Nat.add_mod_left, Nat.mod_eq_of_lt (by omega)]
          · have h2 : ws.length + 1 = N := by omega
            rw [h2, Nat.mod_self, Nat.sub_self]
            simpa using Nat.mod_eq_of_lt (show i < N by omega)
        have hstep : (History.add_measurement N (runAdds N ws) v).at' N i
            = if i = (runAdds N ws).cursor then v else (runAdds N ws).data i := by
          show (History.add_measurement N (runAdds N ws) v).data _ = _
          rw [hphys]
          rfl
        rw [hstep, hcur]
        rcases Nat.lt_or_ge i ws.length with hi2 | hi2
        · -- an old slot, untouched by this insertion
          rw [if_neg (by omega), nth_append_left ws [v] i hi2]
          have hphysg : ((runAdds N ws).cursor + (N - (runAdds N ws).count) + i) % N = i := by
            rw [hcur, hcnt]
            have he : ws.length + (N - ws.length) + i = N + i := by omega
            rw [he, Nat.add_mod_left, Nat.mod_eq_of_lt (by omega)]
          have hgat : (runAdds N ws).at' N i = (runAdds N ws).data i := by
            show (runAdds N ws).data _ = _
            rw [hphysg]
          have := hat i (by omega)
          rw [hgat] at this
          rw [this]
          congr 1
          omega
        · -- the newly written slot
          have hieq : i = ws.length := by omega
          rw [if_pos hieq, hieq, nth_append_length]
      · -- the buffer was already full: the oldest entry is evicted
        have hcnt : (runAdds N ws).count = N := by
          rw [hcount]; omega
        have hcount' :
            (History.add_measurement N (runAdds N ws) v).count = N := by
          simp [History.add_measurement, hcnt]
        have hcursor' :
            (History.add_measurement N (runAdds N ws) v).cursor = (ws.length + 1) % N := by
          show ((runAdds N ws).cursor + 1) % N = (ws.length + 1) % N
          rw [hcursor, Nat.mod_add_mod]
        refine ⟨by rw [hcount']; omega, hcursor', ?_⟩
        intro i hi
        have hiN : i < N := by omega
        have hr : ws.length % N < N := Nat.mod_lt _ hN
        -- the physical slot of logical index i after the insertion
        have hphys :
            ((History.add_measurement N (runAdds N ws) v).cursor +
              (N - (History.add_measurement N (runAdds N ws) v).count) + i) % N
            = (ws.length % N + 1 + i) % N := by
          rw [hcount', hcursor', Nat.sub_self, Nat.add_zero, Nat.mod_add_mod]
          have h2 : ws.length % N + 1 + i = ws.length % N + (1 + i) := by omega
          rw [h2, Nat.mod_add_mod]
          congr 1
          omega
        have hstep : (History.add_measurement N (runAdds N ws) v).at' N i
            = if (ws.length % N + 1 + i) % N = (runAdds N ws).cursor then v
              else (runAdds N ws).data ((ws.length % N + 1 + i) % N) := by
          show (History.add_measurement N (runAdds N ws) v).data _ = _
          rw [hphys]
          rfl
        rw [hstep, hcursor]
        have hmod := mod_two_regions (ws.length % N + 1 + i) N (by omega)
        rcases Nat.lt_or_ge i (N - 1) with hi2 | hi2
        · -- a surviving slot: it held logical index i+1 before the insertion
          have hne : (ws.length % N + 1 + i) % N ≠ ws.length % N := by
            rw [hmod]
            rcases Nat.lt_or_ge (ws.length % N + 1 + i) N with hcase | hcase
            · rw [if_pos hcase]
              omega
            · rw [if_neg (by omega)]
              omega
          rw [if_neg hne]
          have hphysg :
              ((runAdds N ws).cursor + (N - (runAdds N ws).count) + (i + 1)) % N
              = (ws.length % N + 1 + i) % N := by
            rw [hcursor, hcnt, Nat.sub_self, Nat.add_zero]
            have h2 : ws.length % N + 1 + i = ws.length % N + (1 + i) := by omega
            have h3 : i + 1 = 1 + i := by omega
            rw [h3, h2]
          have hgat : (runAdds N ws).at' N (i + 1)
              = (runAdds N ws).data ((ws.length % N + 1 + i) % N) := by
            show (runAdds N ws).data _ = _
            rw [hphysg]
          have hih := hat (i + 1) (by omega)
          rw [hgat] at hih
          rw [hih]
          have hlt2 : ws.length + 1 - min (ws.length + 1) N + i < ws.length := by omega
          rw [nth_append_left ws [v] _ hlt2]
          congr 1
          omega
        · -- the newest slot: it received the inserted value
          have hieq : i = N - 1 := by omega
          have heq : (ws.length % N + 1 + i) % N = ws.length % N := by
            rw [hieq]
            have he : ws.length % N + 1 + (N - 1) = ws.length % N + N := by omega
            rw [he, Nat.add_mod_right, Nat.mod_eq_of_lt hr]
          rw [if_pos heq]
          have hidx : ws.length + 1 - min (ws.length + 1) N + i = ws.length := by omega
          rw [hidx, nth_append_length]

theorem max_value_getD_ne_zero (N : Nat) (h : History) (hcnt : h.count ≠ 0)
    (hmax : History.max_value N h ≠ some 0) :
    (History.max_value N h).getD 0 ≠ 0 := by
  unfold History.max_value at hmax ⊢
  rw [if_neg hcnt] at hmax ⊢
  simp only [Option.getD_some]
  intro h0
  exact hmax (by rw [h0])

/-- Claim C3: for history capacity `N` and every sequence of `m`
`add_measurement` calls starting from a fresh `History` (`add_measurement`
always succeeds: it is total), if `m ≤ N` then `len() = m` and `at(i)` is the
`i`-th inserted value for every `i < m`; if `m > N` then `len() = N`, `at(0)`
is the `(m-N)`-th inserted value (the oldest retained) and `at(N-1)` is the
most recently inserted value. -/
theorem c3_ring_buffer_retention (N : Nat) (hN : 0 < N) (vs : List Nat) :
    (runAdds N vs).len = min vs.length N ∧
    (vs.length ≤ N → ∀ i, i < vs.length → (runAdds N vs).at' N i = nth vs i) ∧
    (N < vs.length →
      (runAdds N vs).len = N ∧
      (runAdds N vs).at' N 0 = nth vs (vs.length - N) ∧
      (runAdds N vs).at' N (N - 1) = nth vs (vs.length - 1)) := by
  obtain ⟨hc, hcur, hat⟩ := runAdds_spec N hN vs
  have hlen : (runAdds N vs).len = min vs.length N := hc
  refine ⟨hlen, ?_, ?_⟩
  · intro hle i hi
    have h := hat i (by omega)
    rw [h]
    congr 1
    omega
  · intro hlt
    refine ⟨by rw [hlen]; omega, ?_, ?_⟩
    · have h := hat 0 (by omega)
      rw [h]
      congr 1
      omega
    · have h := hat (N - 1) (by omega)
      rw [h]
      congr 1
      omega

theorem c3_witness :
    0 < 5 ∧
    ((runAdds 5 [400, 420, 410, 0, 450, 99, 7]).len
        = min (List.length [400, 420, 410, 0, 450, 99, 7]) 5 ∧
      (List.length [400, 420, 410, 0, 450, 99, 7] ≤ 5 →
        ∀ i, i < List.length [400, 420, 410, 0, 450, 99, 7] →
          (runAdds 5 [400, 420, 410, 0, 450, 99, 7]).at' 5 i
            = nth [400, 420, 410, 0, 450, 99, 7] i) ∧
      (5 < List.length [400, 420, 410, 0, 450, 99, 7] →
        (runAdds 5 [400, 420, 410, 0, 450, 99, 7]).len = 5 ∧
        (runAdds 5 [400, 420, 410, 0, 450, 99, 7]).at' 5 0
          = nth [400, 420, 410, 0, 450, 99, 7]
              (List.length [400, 420, 410, 0, 450, 99, 7] - 5) ∧
        (runAdds 5 [400, 420, 410, 0, 450, 99, 7]).at' 5 (5 - 1)
          = nth [400, 420, 410, 0, 450, 99, 7]
              (List.length [400, 420, 410, 0, 450, 99, 7] - 1))) :=
  ⟨by decide, c3_ring_buffer_retention 5 (by decide) [400, 420, 410, 0, 450, 99, 7]⟩

/-- Claim C1 (amended): only `get_co2` failures are caught and degraded — a
`get_co2` error never prevents the cycle from completing.  Failures of
`init`, `start_measurement`, `get_temperature` and the display draw are
process-fatal (`expect`/`unwrap` in `main.rs` lines 68-70, 73-75, 100,
127-129): the cycle completes exactly when those four succeed, independently
of `get_co2`'s outcome. -/
theorem c1_amended_failure_policy (N : Nat) (env : Env) (hist : History)
    (cal : CalibrationData) (ticks : Nat) :
    (runCycle N env hist cal ticks).completed =
      (exceptIsOk env.init_result && exceptIsOk env.start_result &&
        env.temperature.isSome && env.display_ok) := by
  rcases env with ⟨ir, sr, cr, tp, dok⟩
  cases ir <;> cases sr <;> cases cr <;> cases tp <;> cases dok <;>
    simp [runCycle, SunriseSensor.init, SunriseSensor.start_measurement,
      SunriseSensor.get_temperature, SunriseSensor.get_co2, exceptIsOk]

/-- Claim C1 (counterexample): a failed acknowledgment during `init` is a
sensor-protocol failure within a wake cycle after which the cycle does not
continue in degraded form: the program aborts (`expect` at `main.rs` lines
68-70), history does not advance, and nothing after the panic runs. -/
theorem c1_counterexample_init_panic :
    (runCycle 5 envInitFail History.new CalibrationData.new 1000).completed = false ∧
    (runCycle 5 envInitFail History.new CalibrationData.new 1000).history = History.new ∧
    (runCycle 5 envInitFail History.new CalibrationData.new 1000).trace
      = [Event.constructDriver, Event.panicInit] :=
  ⟨rfl, rfl, rfl⟩

/-- Claim C4: on every wake cycle in which `get_co2` returns (that is, every
cycle in which `init` and `start_measurement` succeeded, so that execution
reaches the `get_co2` match), the elapsed-time accumulation `update_time_ms`
runs exactly once on the retained `CalibrationData`, before any display draw
or deep-sleep step, and regardless of whether `get_co2` succeeded or
failed (`main.rs` lines 85-98). -/
theorem c4_update_time_exactly_once (N : Nat) (env : Env) (hist : History)
    (cal : CalibrationData) (ticks : Nat)
    (hinit : exceptIsOk env.init_result = true)
    (hstart : exceptIsOk env.start_result = true) :
    (runCycle N env hist cal ticks).trace.countP isUpdateTime = 1 ∧
    ((runCycle N env hist cal ticks).trace.takeWhile
        (fun e => !(isUpdateTime e))).countP (fun e => isDraw e || isDeepSleep e) = 0 ∧
    (runCycle N env hist cal ticks).calibration.time_ms = cal.time_ms + ticks / 1000 := by
  rcases env with ⟨ir, sr, cr, tp, dok⟩
  cases ir with
  | error e => simp [exceptIsOk] at hinit
  | ok u =>
    cases sr with
    | error e => simp [exceptIsOk] at hstart
    | ok u2 =>
      cases cr <;> cases tp <;> cases dok <;> exact ⟨rfl, rfl, rfl⟩

theorem c4_witness :
    exceptIsOk envAllOk.init_result = true ∧
    exceptIsOk envAllOk.start_result = true ∧
    ((runCycle 5 envAllOk History.new CalibrationData.new 7000).trace.countP
        isUpdateTime = 1 ∧
      ((runCycle 5 envAllOk History.new CalibrationData.new 7000).trace.takeWhile
          (fun e => !(isUpdateTime e))).countP (fun e => isDraw e || isDeepSleep e) = 0 ∧
      (runCycle 5 envAllOk History.new CalibrationData.new 7000).calibration.time_ms
        = CalibrationData.new.time_ms + 7000 / 1000) :=
  ⟨rfl, rfl, c4_update_time_exactly_once 5 envAllOk History.new CalibrationData.new 7000 rfl rfl⟩

/-- Claim C5: every wake cycle that runs to completion performs, strictly in
this order: driver construction, `init`, `start_measurement` with the
calibration payload, the timed wait of `number_of_samples *
milliseconds_per_sample` ms, `get_co2` (performing the calibration
bookkeeping update), `add_measurement` of the result or sentinel, the
elapsed-time update, `get_temperature`, `turn_off`, the display draw, arming
the wake timer, deep sleep.  Sensor acquisition and the `get_co2`-side
calibration update precede the history mutation and the sleep re-arming, and
the display receives exactly the already-updated history. -/
theorem c5_cycle_order (N : Nat) (env : Env) (hist : History)
    (cal : CalibrationData) (ticks : Nat)
    (hc : (runCycle N env hist cal ticks).completed = true) :
    ∃ v, (runCycle N env hist cal ticks).trace =
        [Event.constructDriver, Event.initOk, Event.startOk,
         Event.timedWait (number_of_samples * milliseconds_per_sample),
         Event.getCo2, Event.calibrationBookkeeping, Event.addMeasurement v,
         Event.updateTime (ticks / 1000), Event.getTemperature, Event.turnOff,
         Event.draw, Event.armTimer (durationFromSecs 0), Event.deepSleep] ∧
      (runCycle N env hist cal ticks).history = History.add_measurement N hist v ∧
      (runCycle N env hist cal ticks).drawInput
        = some (History.add_measurement N hist v) := by
  rcases env with ⟨ir, sr, cr, tp, dok⟩
  cases ir with
  | error e => simp [runCycle, SunriseSensor.init] at hc
  | ok u =>
    cases sr with
    | error e => simp [runCycle, SunriseSensor.init, SunriseSensor.start_measurement] at hc
    | ok u2 =>
      cases tp with
      | none =>
          cases cr <;>
            simp [runCycle, SunriseSensor.init, SunriseSensor.start_measurement,
              SunriseSensor.get_temperature, SunriseSensor.get_co2] at hc
      | some t =>
          cases dok with
          | false =>
              cases cr <;>
                simp [runCycle, SunriseSensor.init, SunriseSensor.start_measurement,
                  SunriseSensor.get_temperature, SunriseSensor.get_co2] at hc
          | true =>
              cases cr with
              | ok v => exact ⟨v, rfl, rfl, rfl⟩
              | error e => exact ⟨0, rfl, rfl, rfl⟩

theorem c5_witness :
    (runCycle 5 envAllOk History.new CalibrationData.new 7000).completed = true ∧
    ∃ v, (runCycle 5 envAllOk History.new CalibrationData.new 7000).trace =
        [Event.constructDriver, Event.initOk, Event.startOk,
         Event.timedWait (number_of_samples * milliseconds_per_sample),
         Event.getCo2, Event.calibrationBookkeeping, Event.addMeasurement v,
         Event.updateTime (7000 / 1000), Event.getTemperature, Event.turnOff,
         Event.draw, Event.armTimer (durationFromSecs 0), Event.deepSleep] ∧
      (runCycle 5 envAllOk History.new CalibrationData.new 7000).history
        = History.add_measurement 5 History.new v ∧
      (runCycle 5 envAllOk History.new CalibrationData.new 7000).drawInput
        = some (History.add_measurement 5 History.new v) :=
  ⟨rfl, c5_cycle_order 5 envAllOk History.new CalibrationData.new 7000 rfl⟩

/-- Claim C6: whenever `get_co2` returns an error (in a cycle that reaches
it), the orchestrator records the sentinel value 0 via `add_measurement`, the
history advances by exactly one entry that cycle, and `get_co2` is invoked
exactly once — there is no in-cycle retry (`main.rs` lines 85-95). -/
theorem c6_sentinel_on_co2_error (N : Nat) (env : Env) (hist : History)
    (cal : CalibrationData) (ticks : Nat) (e : SensorError)
    (hco2 : env.co2_result = Except.error e)
    (hinit : exceptIsOk env.init_result = true)
    (hstart : exceptIsOk env.start_result = true) :
    (runCycle N env hist cal ticks).history = History.add_measurement N hist 0 ∧
    (runCycle N env hist cal ticks).trace.countP isAdd = 1 ∧
    (runCycle N env hist cal ticks).trace.countP isGetCo2 = 1 := by
  rcases env with ⟨ir, sr, cr, tp, dok⟩
  cases ir with
  | error e2 => simp [exceptIsOk] at hinit
  | ok u =>
    cases sr with
    | error e2 => simp [exceptIsOk] at hstart
    | ok u2 =>
      cases cr with
      | ok v => simp at hco2
      | error e2 => cases tp <;> cases dok <;> exact ⟨rfl, rfl, rfl⟩

theorem c6_witness :
    envCo2Fail.co2_result = Except.error (SensorError.internalFault 3) ∧
    exceptIsOk envCo2Fail.init_result = true ∧
    exceptIsOk envCo2Fail.start_result = true ∧
    ((runCycle 5 envCo2Fail History.new CalibrationData.new 7000).history
        = History.add_measurement 5 History.new 0 ∧
      (runCycle 5 envCo2Fail History.new CalibrationData.new 7000).trace.countP isAdd = 1 ∧
      (runCycle 5 envCo2Fail History.new CalibrationData.new 7000).trace.countP isGetCo2 = 1) :=
  ⟨rfl, rfl, rfl,
    c6_sentinel_on_co2_error 5 envCo2Fail History.new CalibrationData.new 7000
      (SensorError.internalFault 3) rfl rfl rfl⟩

/-- Claim C7: in every wake cycle that runs to completion, the history is
mutated exactly once — a single `add_measurement` of either the measured
value or the sentinel — and the display draw receives exactly that
already-updated history (the draw is read-only: `Display::draw` takes
`&History` and the embedding returns no history from it). -/
theorem c7_single_history_mutation (N : Nat) (env : Env) (hist : History)
    (cal : CalibrationData) (ticks : Nat)
    (hc : (runCycle N env hist cal ticks).completed = true) :
    (runCycle N env hist cal ticks).trace.countP isAdd = 1 ∧
    (∃ v, (runCycle N env hist cal ticks).history = History.add_measurement N hist v) ∧
    (runCycle N env hist cal ticks).drawInput
      = some ((runCycle N env hist cal ticks).history) := by
  rcases env with ⟨ir, sr, cr, tp, dok⟩
  cases ir with
  | error e => simp [runCycle, SunriseSensor.init] at hc
  | ok u =>
    cases sr with
    | error e => simp [runCycle, SunriseSensor.init, SunriseSensor.start_measurement] at hc
    | ok u2 =>
      cases tp with
      | none =>
          cases cr <;>
            simp [runCycle, SunriseSensor.init, SunriseSensor.start_measurement,
              SunriseSensor.get_temperature, SunriseSensor.get_co2] at hc
      | some t =>
          cases dok with
          | false =>
              cases cr <;>
                simp [runCycle, SunriseSensor.init, SunriseSensor.start_measurement,
                  SunriseSensor.get_temperature, SunriseSensor.get_co2] at hc
          | true =>
              cases cr with
              | ok v => exact ⟨rfl, ⟨v, rfl⟩, rfl⟩
              | error e => exact ⟨rfl, ⟨0, rfl⟩, rfl⟩

theorem c7_witness :
    (runCycle 5 envAllOk History.new CalibrationData.new 7000).completed = true ∧
    ((runCycle 5 envAllOk History.new CalibrationData.new 7000).trace.countP isAdd = 1 ∧
      (∃ v, (runCycle 5 envAllOk History.new CalibrationData.new 7000).history
          = History.add_measurement 5 History.new v) ∧
      (runCycle 5 envAllOk History.new CalibrationData.new 7000).drawInput
        = some ((runCycle 5 envAllOk History.new CalibrationData.new 7000).history)) :=
  ⟨rfl, c7_single_history_mutation 5 envAllOk History.new CalibrationData.new 7000 rfl⟩

/-- Claim C8: if `init` fails (failed acknowledgment or unexpected device
status), the cycle receives an `InitError` and the retained
`CalibrationData` — in particular its accumulated operating time — is left
completely unchanged; `init` does not take the calibration record at all. -/
theorem c8_init_error_calibration_unchanged (N : Nat) (env : Env) (hist : History)
    (cal : CalibrationData) (ticks : Nat) (e : InitError)
    (hinit : env.init_result = Except.error e) :
    (runCycle N env hist cal ticks).calibration = cal ∧
    (runCycle N env hist cal ticks).history = hist := by
  rcases env with ⟨ir, sr, cr, tp, dok⟩
  cases ir with
  | error e2 => exact ⟨rfl, rfl⟩
  | ok u => simp at hinit

theorem c8_witness :
    envInitFail.init_result = Except.error InitError.ackFailed ∧
    ((runCycle 5 envInitFail History.new CalibrationData.new 7000).calibration
        = CalibrationData.new ∧
      (runCycle 5 envInitFail History.new CalibrationData.new 7000).history
        = History.new) :=
  ⟨rfl, c8_init_error_calibration_unchanged 5 envInitFail History.new
      CalibrationData.new 7000 InitError.ackFailed rfl⟩

/-- Claim C10: the deep-sleep wake timer armed at the end of every wake cycle
is constructed with `Duration::from_secs(0)` (`main.rs` line 139): every
completed cycle arms a 0 ms timer, and every armed timer in any cycle's trace
has duration 0 — an immediate re-wake, not a positive sampling period. -/
theorem c10_deep_sleep_timer_zero (N : Nat) (env : Env) (hist : History)
    (cal : CalibrationData) (ticks : Nat) :
    durationFromSecs 0 = 0 ∧
    ((runCycle N env hist cal ticks).completed = true →
      Event.armTimer 0 ∈ (runCycle N env hist cal ticks).trace) ∧
    (∀ d, Event.armTimer d ∈ (runCycle N env hist cal ticks).trace → d = 0) := by
  refine ⟨rfl, ?_, ?_⟩
  · intro hc
    rcases env with ⟨ir, sr, cr, tp, dok⟩
    cases ir <;> cases sr <;> cases cr <;> cases tp <;> cases dok <;>
      simp [runCycle, SunriseSensor.init, SunriseSensor.start_measurement,
        SunriseSensor.get_temperature, SunriseSensor.get_co2, durationFromSecs] at hc ⊢
  · intro d hd
    rcases env with ⟨ir, sr, cr, tp, dok⟩
    cases ir <;> cases sr <;> cases cr <;> cases tp <;> cases dok <;>
      simp [runCycle, SunriseSensor.init, SunriseSensor.start_measurement,
        SunriseSensor.get_temperature, SunriseSensor.get_co2, durationFromSecs] at hd <;>
      omega

theorem c10_witness :
    (runCycle 5 envAllOk History.new CalibrationData.new 7000).completed = true ∧
    Event.armTimer 0 ∈ (runCycle 5 envAllOk History.new CalibrationData.new 7000).trace :=
  ⟨rfl, (c10_deep_sleep_timer_zero 5 envAllOk History.new CalibrationData.new 7000).2.1 rfl⟩

/-- Claim C2 (counterexample): the emptiness check alone does not prevent a
division by zero in `Display::draw_graph`.  A history holding two sentinel
readings (two failed measurements) has `len() = 2 > 0`, yet `max_value()` is
0 and the y-coordinate computation of `draw_graph` divides by it. -/
theorem c2_counterexample_zero_max :
    0 < (runAdds 5 [0, 0]).len ∧ 0 ∈ drawGraphDivisors 5 (runAdds 5 [0, 0]) := by
  decide

/-- Claim C2 (amended): for a history handed to the display, the emptiness
check rules out the `len() - 1` divisors (the graph loop body only runs when
`len() ≥ 2`), but not the `max_value()` divisor; no division by zero is
performed if additionally `max_value()` is not 0 — which can fail, since
sentinel readings make every retained value 0. -/
theorem c2_amended_no_div_by_zero (N : Nat) (h : History)
    (hmax : History.max_value N h ≠ some 0) :
    ∀ d ∈ drawGraphDivisors N h, d ≠ 0 := by
  intro d hd
  unfold drawGraphDivisors at hd
  simp only [List.mem_flatMap, List.mem_range] at hd
  obtain ⟨i, hi, hdmem⟩ := hd
  have hlc : h.len = h.count := rfl
  have hcnt : h.count ≠ 0 := by omega
  have hne := max_value_getD_ne_zero N h hcnt hmax
  simp only [List.mem_cons, List.not_mem_nil, or_false] at hdmem
  rcases hdmem with h1 | h1 | h1 | h1 <;> omega

theorem c2_witness :
    History.max_value 5 (runAdds 5 [400, 450]) ≠ some 0 ∧
    ∀ d ∈ drawGraphDivisors 5 (runAdds 5 [400, 450]), d ≠ 0 :=
  ⟨by decide, c2_amended_no_div_by_zero 5 (runAdds 5 [400, 450]) (by decide)⟩

/-- Claim C9: `update_time_ms(delta)` adds `delta` to the accumulated
operating-time counter, and applying deltas `d1` then `d2` yields the same
`CalibrationData` as applying them in the reverse order. -/
theorem c9_update_time_additive_commutative (c : CalibrationData) (d1 d2 : Nat) :
    (CalibrationData.update_time_ms c d1).time_ms = c.time_ms + d1 ∧
    CalibrationData.update_time_ms (CalibrationData.update_time_ms c d1) d2 =
      CalibrationData.update_time_ms (CalibrationData.update_time_ms c d2) d1 := by
  refine ⟨rfl, ?_⟩
  simp only [CalibrationData.update_time_ms]
  congr 1
  omega

end CO2Canary
